import Mathlib

/-!
Shallow embedding of `8_13_test_streamlit.py` (AtVenu → ShipHero nightly
settlement sync).  The Python program fetches a four-level hierarchy
(accounts → tours → shows → settlement counts) plus a per-account
merchandise catalog over a paginated GraphQL API, joins counts to
merchandise variants, computes a sold quantity per count, and exports a
flat table.

JSON null / missing keys are modelled with `Option`; Python numbers with
`Int` (truthiness of `0` matches `0.0`); Python's `x or y` is modelled
explicitly wherever the source uses it.  Raised exceptions are modelled
with `Except`.
-/

/-! ## Data model (shapes of the GraphQL responses used by the code) -/

/-- A node of the `accounts` connection: `{uuid, artistName: name}`. -/
structure AccountNode where
  uuid : String
  artistName : String
  deriving Repr, DecidableEq

/-- A node of the `tours` connection: `{uuid, tourName: name}`. -/
structure TourNode where
  uuid : String
  tourName : String
  deriving Repr, DecidableEq

/-- `location { capacity city stateProvince country }` of a show. -/
structure LocationNode where
  capacity : Option Int
  city : String
  stateProvince : String
  country : String
  deriving Repr, DecidableEq

/-- A node of the `shows` connection, annotated (as the Python code does in
`fetch_shows_in_date_range`) with its owning account and tour. -/
structure ShowNode where
  uuid : String
  showDate : String
  showEndDate : Option String
  state : Option String
  attendance : Option Int
  capacity : Option Int
  currencyCode : String
  location : LocationNode
  account : AccountNode
  tour : TourNode
  deriving Repr, DecidableEq

/-- A node of `merchVariants`: `{sku, size, uuid, price}`. -/
structure MerchVariant where
  sku : String
  size : String
  uuid : String
  price : Option Int
  deriving Repr, DecidableEq

/-- A node of the `merchItems` connection. -/
structure MerchItem where
  name : String
  category : String
  uuid : String
  productTypeName : String
  merchVariants : List MerchVariant
  deriving Repr, DecidableEq

/-- A `merchAdds` entry: `{quantity}`. -/
structure MerchAdd where
  quantity : Option Int
  deriving Repr, DecidableEq

/-- A node of the `mainCounts` connection (one count record). -/
structure CountRecord where
  merchVariantUuid : String
  priceOverride : Option Int
  countIn : Option Int
  countOut : Option Int
  comps : Option Int
  merchAdds : List MerchAdd
  deriving Repr, DecidableEq

/-! ## `calculate_sold` -/

/-- Python `count.get(key, 0) or 0`: a missing key or `None` gives `0`, and
the trailing `or 0` maps a falsy number (`0`) to `0` (the identity on
integers). -/
def pyGetOrZero (v : Option Int) : Int :=
  match v with
  | none => 0
  | some n => if n = 0 then 0 else n

/-- `AtVenuDataFetcher.calculate_sold`:
`sold = count_in + adds - count_out - comps` where
`adds = sum((add.get('quantity', 0) or 0) for add in count.get('merchAdds', []))`. -/
def calculate_sold (count : CountRecord) : Int :=
  pyGetOrZero count.countIn
    + (count.merchAdds.map (fun a => pyGetOrZero a.quantity)).sum
    - pyGetOrZero count.countOut
    - pyGetOrZero count.comps

/-! ## `execute_query` -/

/-- The parsed JSON body of a GraphQL response, generic over the payload
under `data`.  `errors = none` models a body without an `errors` key;
`errors = some l` models the key being present with list `l` (the code
tests `if 'errors' in result`). -/
structure GqlResponse (α : Type) where
  errors : Option (List String)
  payload : α
  deriving Repr, DecidableEq

/-- What `requests.post` produced: either the call did not complete
(`requests` raised), or an HTTP response with a status code and a parsed
body. -/
inductive HttpResult (α : Type) where
  | failure
  | response (statusCode : Nat) (body : GqlResponse α)
  deriving Repr, DecidableEq

/-- The distinct raise sites of `execute_query` (all are `Exception` in
Python; the constructors record which message was raised). -/
inductive QueryFailure where
  | transport
  | graphqlErrors (errors : List String)
  | badStatus (statusCode : Nat)
  deriving Repr, DecidableEq

/-- `AtVenuDataFetcher.execute_query`: on status 200, raise when the body
has an `errors` key, else return the parsed body unmodified; on any other
status, raise; a transport failure propagates out of `requests.post`. -/
def execute_query {α : Type} (r : HttpResult α) : Except QueryFailure (GqlResponse α) :=
  match r with
  | .failure => .error .transport
  | .response statusCode body =>
    if statusCode = 200 then
      match body.errors with
      | some errs => .error (.graphqlErrors errs)
      | none => .ok body
    else
      .error (.badStatus statusCode)

/-! ## The pagination loop

Each of `fetch_accounts`, `fetch_tours`, `fetch_shows`,
`fetch_merchandise` runs the identical loop (only the GraphQL document
and the JSON path to the connection differ):

    items, cursor = [], None
    while True:
        result = execute_query(query, {..., "cursor": cursor})
        items.extend(conn['nodes'])
        if not conn['pageInfo']['hasNextPage']: break
        cursor = conn['pageInfo']['endCursor']
    return items

We model the server as the finite list of connection pages it serves to
successive requests, and record the cursor sent with each request. -/

structure PageInfo where
  hasNextPage : Bool
  endCursor : Option String
  deriving Repr, DecidableEq

/-- One page of a paginated connection: `{pageInfo, nodes}`. -/
structure Page (α : Type) where
  pageInfo : PageInfo
  nodes : List α
  deriving Repr, DecidableEq

/-- Errors of the modelled loops: `serverExhausted` marks a run in which a
page reported `hasNextPage` but the server had no further response (the
Python loop would block on a request we cannot model); `indexError`
models Python's `IndexError` from `settlements[0]` on an empty list. -/
inductive LoopErr where
  | serverExhausted
  | indexError
  deriving Repr, DecidableEq

/-- The pagination loop, started at `cursor`, consuming the pages the
server serves in order.  Returns the accumulated nodes and the list of
cursors sent, one per request. -/
def paginateFrom {α : Type} (cursor : Option String) :
    List (Page α) → Except LoopErr (List α × List (Option String))
  | [] => .error .serverExhausted
  | page :: rest =>
    if page.pageInfo.hasNextPage then
      match paginateFrom page.pageInfo.endCursor rest with
      | .ok (nodes, cursors) => .ok (page.nodes ++ nodes, cursor :: cursors)
      | .error e => .error e
    else
      .ok (page.nodes, [cursor])

/-- `AtVenuDataFetcher.fetch_accounts`: the loop over
`result['data']['organization']['accounts']`, starting with `cursor = None`. -/
def fetch_accounts (pages : List (Page AccountNode)) :
    Except LoopErr (List AccountNode × List (Option String)) :=
  paginateFrom none pages

/-- `AtVenuDataFetcher.fetch_tours`: the loop over
`result['data']['account']['tours']`. -/
def fetch_tours (pages : List (Page TourNode)) :
    Except LoopErr (List TourNode × List (Option String)) :=
  paginateFrom none pages

/-- `AtVenuDataFetcher.fetch_shows`: the loop over
`result['data']['tour']['shows']`. -/
def fetch_shows (pages : List (Page ShowNode)) :
    Except LoopErr (List ShowNode × List (Option String)) :=
  paginateFrom none pages

/-- `AtVenuDataFetcher.fetch_merchandise`: the loop over
`result['data']['account']['merchItems']`. -/
def fetch_merchandise (pages : List (Page MerchItem)) :
    Except LoopErr (List MerchItem × List (Option String)) :=
  paginateFrom none pages

/-! ## `fetch_counts` -/

/-- One settlement of a show; the code reads only `mainCounts` of it. -/
structure Settlement where
  mainCounts : Page CountRecord
  deriving Repr, DecidableEq

/-- The payload of one `counts` query response:
`result['data']['show']['settlements']`. -/
structure CountsResponse where
  settlements : List Settlement
  deriving Repr, DecidableEq

/-- `AtVenuDataFetcher.fetch_counts`: the pagination loop reading
`settlements[0]['mainCounts']` of each response (indexing raises on an
empty `settlements` list). -/
def fetch_counts (cursor : Option String) :
    List CountsResponse → Except LoopErr (List CountRecord × List (Option String))
  | [] => .error .serverExhausted
  | resp :: rest =>
    match resp.settlements with
    | [] => .error .indexError
    | s :: _ =>
      if s.mainCounts.pageInfo.hasNextPage then
        match fetch_counts s.mainCounts.pageInfo.endCursor rest with
        | .ok (nodes, cursors) => .ok (s.mainCounts.nodes ++ nodes, cursor :: cursors)
        | .error e => .error e
      else
        .ok (s.mainCounts.nodes, [cursor])

/-! ## `fetch_all_data`: join and derivation

`fetch_all_data` walks the annotated shows, fetches merchandise once per
account uuid (a dict cache), fetches the counts of each show, and joins
each count against the merchandise by `merchVariantUuid`.  We model the
two remaining remote reads as functions: `merchOf` gives the merchandise
list of an account uuid, and `countsOf` gives the count list of a show
uuid (their pagination is modelled separately above). -/

/-- The value stored in the output's `Price` column:
`count['priceOverride'] or (variant['price'] if variant else 'N/A')`.
A Python number, `None`, or the string `'N/A'`. -/
inductive PriceVal where
  | num (n : Int)
  | pyNone
  | na
  deriving Repr, DecidableEq

/-- `variant['price'] if variant else 'N/A'` — the right operand of the
`or` in the `Price` expression. -/
def priceFallback (variant : Option MerchVariant) : PriceVal :=
  match variant with
  | some v =>
    match v.price with
    | some p => .num p
    | none => .pyNone
  | none => .na

/-- `count['priceOverride'] or (variant['price'] if variant else 'N/A')`:
Python's `or` keeps the left operand when it is truthy (a non-`None`,
non-zero number) and otherwise evaluates to the right operand. -/
def priceValue (priceOverride : Option Int) (variant : Option MerchVariant) : PriceVal :=
  match priceOverride with
  | some n => if n = 0 then priceFallback variant else .num n
  | none => priceFallback variant

/-- One element of `all_data` (the dict appended per matched count). -/
structure SoldRecord where
  band : String
  tourName : String
  venue : String
  productName : String
  size : String
  sku : String
  countIn : Int
  countOut : Int
  sold : Int
  showDate : String
  price : PriceVal
  deriving Repr, DecidableEq

/-- `next((item for item in merchandise for variant in item['merchVariants']
if variant['uuid'] == count['merchVariantUuid']), None)`: the first
merch item owning a variant with the given uuid. -/
def findMerchItem (merchandise : List MerchItem) (uuid : String) : Option MerchItem :=
  merchandise.find? (fun item => item.merchVariants.any (fun v => v.uuid == uuid))

/-- `next((v for v in merch_item['merchVariants'] if v['uuid'] ==
count['merchVariantUuid']), None)`. -/
def findVariant (item : MerchItem) (uuid : String) : Option MerchVariant :=
  item.merchVariants.find? (fun v => v.uuid == uuid)

/-- The body of the `for count in counts` loop of `fetch_all_data`: emits
the appended dict when a merch item matches, nothing otherwise. -/
def processCount (sh : ShowNode) (merchandise : List MerchItem)
    (count : CountRecord) : Option SoldRecord :=
  match findMerchItem merchandise count.merchVariantUuid with
  | none => none
  | some merch_item =>
    let variant := findVariant merch_item count.merchVariantUuid
    some {
      band := sh.account.artistName
      tourName := sh.tour.tourName
      venue := sh.location.city ++ ", " ++ sh.location.stateProvince
        ++ ", " ++ sh.location.country
      productName := merch_item.name
      size := match variant with | some v => v.size | none => "N/A"
      sku := match variant with | some v => v.sku | none => "N/A"
      countIn := pyGetOrZero count.countIn
      countOut := pyGetOrZero count.countOut
      sold := calculate_sold count
      showDate := sh.showDate
      price := priceValue count.priceOverride variant
    }

/-- The records `fetch_all_data` appends for one show. -/
def processShow (sh : ShowNode) (merchandise : List MerchItem)
    (counts : List CountRecord) : List SoldRecord :=
  counts.filterMap (processCount sh merchandise)

/-- Lookup in the modelled `merchandise_cache` dict (`uuid in cache` /
`cache[uuid]`). -/
def cacheLookup (cache : List (String × List MerchItem)) (uuid : String) :
    Option (List MerchItem) :=
  (cache.find? (fun kv => kv.fst == uuid)).map Prod.snd

/-- The `for show in shows` loop of `fetch_all_data`, threading the
merchandise cache.  Returns the accumulated `all_data`, the final cache,
and the account uuids for which `fetch_merchandise` was called, in call
order. -/
def fetchAllLoop (merchOf : String → List MerchItem)
    (countsOf : String → List CountRecord) :
    List ShowNode → List (String × List MerchItem) →
    List SoldRecord × List (String × List MerchItem) × List String
  | [], cache => ([], cache, [])
  | sh :: rest, cache =>
    let auuid := sh.account.uuid
    let fetched := match cacheLookup cache auuid with
      | some _ => (cache, ([] : List String))
      | none => (cache ++ [(auuid, merchOf auuid)], [auuid])
    let merchandise := (cacheLookup fetched.fst auuid).getD []
    let recs := processShow sh merchandise (countsOf sh.uuid)
    let tail := fetchAllLoop merchOf countsOf rest fetched.fst
    (recs ++ tail.fst, tail.snd.fst, fetched.snd ++ tail.snd.snd)

/-- `AtVenuDataFetcher.fetch_all_data`, given the already-annotated shows
of the date range and the two remote reads as functions. -/
def fetch_all_data (merchOf : String → List MerchItem)
    (countsOf : String → List CountRecord) (shows : List ShowNode) :
    List SoldRecord × List (String × List MerchItem) × List String :=
  fetchAllLoop merchOf countsOf shows []

/-! ## The export transformation of `main`

    df['Location'] = df['Band'] + " - " + df['Tour Name']
    df['Quantity'] = -df['Sold']
    df['Reason'] = 'Nightly Sales'
    df = df[['SKU', 'Quantity', 'Location', 'Reason']]
    df.insert(1, 'Action', 'Replace')

A dataframe row is modelled as an ordered association list from column
name to cell value. -/

/-- A dataframe cell: a string, an integer, or a `Price` value. -/
inductive Cell where
  | s (v : String)
  | i (v : Int)
  | p (v : PriceVal)
  deriving Repr, DecidableEq

/-- The dict appended to `all_data`, as an ordered row of the initial
dataframe (keys in the order the Python dict literal lists them). -/
def recordRow (r : SoldRecord) : List (String × Cell) :=
  [ ("Band", .s r.band)
  , ("Tour Name", .s r.tourName)
  , ("Venue", .s r.venue)
  , ("Product Name", .s r.productName)
  , ("Size", .s r.size)
  , ("SKU", .s r.sku)
  , ("In", .i r.countIn)
  , ("Out", .i r.countOut)
  , ("Sold", .i r.sold)
  , ("Show Date", .s r.showDate)
  , ("Price", .p r.price) ]

/-- `df[cols]`: keep exactly `cols`, in that order. -/
def selectCols (cols : List String) (row : List (String × Cell)) :
    List (String × Cell) :=
  cols.filterMap (fun c => (row.lookup c).map (fun v => (c, v)))

/-- `df.insert(pos, col, value)` on one row. -/
def insertCol (pos : Nat) (kv : String × Cell) (row : List (String × Cell)) :
    List (String × Cell) :=
  row.take pos ++ [kv] ++ row.drop pos

/-- The per-row effect of the dataframe pipeline of `main` that builds the
export table. -/
def exportRow (r : SoldRecord) : List (String × Cell) :=
  let row := recordRow r
    ++ [ ("Location", .s (r.band ++ " - " ++ r.tourName))
       , ("Quantity", .i (-r.sold))
       , ("Reason", .s "Nightly Sales") ]
  insertCol 1 ("Action", .s "Replace") (selectCols ["SKU", "Quantity", "Location", "Reason"] row)

/-- `Location.str.split(' - ').str[0]` of an export row: the band part of
the `Location` column, used by the band filter. -/
def rowBand (row : List (String × Cell)) : String :=
  match row.lookup "Location" with
  | some (.s l) => ((l.splitOn " - ").headD "")
  | _ => ""

/-- The filtered export table of `main`: every record becomes a row, then
rows whose band is not among the selected bands are dropped. -/
def exportTable (records : List SoldRecord) (selectedBands : List String) :
    List (List (String × Cell)) :=
  (records.map exportRow).filter (fun row => selectedBands.contains (rowBand row))

/-! ## Shared example fixtures -/

def exAccount : AccountNode := ⟨"acc1", "BandX"⟩

def exTour : TourNode := ⟨"tour1", "TourY"⟩

def exShow : ShowNode :=
  ⟨"show1", "2024-08-13", none, none, none, none, "USD",
   ⟨none, "New York", "NY", "US"⟩, exAccount, exTour⟩

def exVariant : MerchVariant := ⟨"A1", "M", "v1", some 5⟩

def exItem : MerchItem := ⟨"Shirt", "apparel", "item1", "Tee", [exVariant]⟩

/-! ## Helper lemmas -/

/-- A properly terminated run of the pagination loop: every page before the
last reports `hasNextPage`, the last does not.  The loop returns the
concatenation of all pages' nodes, and sends one request per page whose
cursor is the starting cursor followed by each non-final page's
`endCursor`. -/
theorem paginateFrom_run {α : Type} (mid : List (Page α)) (lastPage : Page α)
    (cursor : Option String)
    (hmid : ∀ p ∈ mid, p.pageInfo.hasNextPage = true)
    (hlast : lastPage.pageInfo.hasNextPage = false) :
    paginateFrom cursor (mid ++ [lastPage]) =
      .ok (((mid ++ [lastPage]).map Page.nodes).flatten,
           cursor :: mid.map (fun p => p.pageInfo.endCursor)) := by
  induction mid generalizing cursor with
  | nil => simp [paginateFrom, hlast]
  | cons p rest ih =>
    have hp : p.pageInfo.hasNextPage = true := hmid p (by simp)
    have hrest : ∀ q ∈ rest, q.pageInfo.hasNextPage = true :=
      fun q hq => hmid q (by simp [hq])
    have hih := ih p.pageInfo.endCursor hrest
    simp [paginateFrom, hp, hih, List.append_assoc]

/-- The `mainCounts` page that `fetch_counts` reads from a response
(`settlements[0]['mainCounts']`); a dummy page when `settlements` is
empty (the code raises there). -/
def firstCountsPage (r : CountsResponse) : Page CountRecord :=
  match r.settlements with
  | [] => ⟨⟨false, none⟩, []⟩
  | s :: _ => s.mainCounts

/-- A properly terminated run of `fetch_counts`: every response has a
first settlement, every response before the last reports `hasNextPage`
on its first settlement's counts page, the last does not. -/
theorem fetch_counts_run (mid : List CountsResponse) (lastResp : CountsResponse)
    (cursor : Option String)
    (hset : ∀ r ∈ mid ++ [lastResp], r.settlements ≠ [])
    (hmid : ∀ r ∈ mid, (firstCountsPage r).pageInfo.hasNextPage = true)
    (hlast : (firstCountsPage lastResp).pageInfo.hasNextPage = false) :
    fetch_counts cursor (mid ++ [lastResp]) =
      .ok (((mid ++ [lastResp]).map (fun r => (firstCountsPage r).nodes)).flatten,
           cursor :: mid.map (fun r => (firstCountsPage r).pageInfo.endCursor)) := by
  induction mid generalizing cursor with
  | nil =>
    have h0 : lastResp.settlements ≠ [] := hset lastResp (by simp)
    cases hs : lastResp.settlements with
    | nil => exact absurd hs h0
    | cons s tl =>
      have : (firstCountsPage lastResp) = s.mainCounts := by
        simp [firstCountsPage, hs]
      simp only [List.nil_append, fetch_counts, hs]
      rw [this] at hlast
      simp [hlast, firstCountsPage, hs]
  | cons r rest ih =>
    have h0 : r.settlements ≠ [] := hset r (by simp)
    cases hs : r.settlements with
    | nil => exact absurd hs h0
    | cons s tl =>
      have hfp : firstCountsPage r = s.mainCounts := by
        simp [firstCountsPage, hs]
      have hr : s.mainCounts.pageInfo.hasNextPage = true := by
        rw [← hfp]; exact hmid r (by simp)
      have hset' : ∀ x ∈ rest ++ [lastResp], x.settlements ≠ [] :=
        fun x hx => hset x (by simp at hx ⊢; tauto)
      have hmid' : ∀ x ∈ rest, (firstCountsPage x).pageInfo.hasNextPage = true :=
        fun x hx => hmid x (by simp [hx])
      have hih := ih s.mainCounts.pageInfo.endCursor hset' hmid'
      simp only [List.cons_append, fetch_counts, hs]
      simp [hr, hfp, hih, List.append_assoc]

/-! ## C1: `calculate_sold` -/

/-- C1: for every count record, `calculate_sold` returns
`count_in + sum of add quantities - count_out - comps` with every missing
or null numeric field treated as zero; in particular
`count_in=10, count_out=None, comps=2, adds=[]` yields `8`. -/
theorem calculate_sold_spec :
    (∀ c : CountRecord,
      calculate_sold c =
        c.countIn.getD 0 + (c.merchAdds.map (fun a => a.quantity.getD 0)).sum
          - c.countOut.getD 0 - c.comps.getD 0)
    ∧ calculate_sold ⟨"v1", none, some 10, none, some 2, []⟩ = 8 := by
  have hz : ∀ v : Option Int, pyGetOrZero v = v.getD 0 := by
    intro v
    cases v with
    | none => rfl
    | some n =>
      simp only [pyGetOrZero, Option.getD_some]
      split <;> omega
  constructor
  · intro c
    simp [calculate_sold, hz]
  · rfl

/-! ## C2: the pagination collectors -/

/-- C2: each paginated collector (accounts, tours, shows, merchandise,
counts), run against a sequence of pages whose last page alone reports
`hasNextPage = false`, returns the concatenation of every page's nodes in
page order, issues exactly one request per page (the request count equals
the page count), and advances the cursor to each page's `endCursor`
(requests carry `None` then each non-final page's `endCursor`). -/
theorem collectors_paginate :
    (∀ (mid : List (Page AccountNode)) (lastPage : Page AccountNode),
      (∀ p ∈ mid, p.pageInfo.hasNextPage = true) →
      lastPage.pageInfo.hasNextPage = false →
      fetch_accounts (mid ++ [lastPage]) =
        .ok (((mid ++ [lastPage]).map Page.nodes).flatten,
             none :: mid.map (fun p => p.pageInfo.endCursor)) ∧
      (none :: mid.map (fun p => p.pageInfo.endCursor)).length = (mid ++ [lastPage]).length)
    ∧ (∀ (mid : List (Page TourNode)) (lastPage : Page TourNode),
      (∀ p ∈ mid, p.pageInfo.hasNextPage = true) →
      lastPage.pageInfo.hasNextPage = false →
      fetch_tours (mid ++ [lastPage]) =
        .ok (((mid ++ [lastPage]).map Page.nodes).flatten,
             none :: mid.map (fun p => p.pageInfo.endCursor)) ∧
      (none :: mid.map (fun p => p.pageInfo.endCursor)).length = (mid ++ [lastPage]).length)
    ∧ (∀ (mid : List (Page ShowNode)) (lastPage : Page ShowNode),
      (∀ p ∈ mid, p.pageInfo.hasNextPage = true) →
      lastPage.pageInfo.hasNextPage = false →
      fetch_shows (mid ++ [lastPage]) =
        .ok (((mid ++ [lastPage]).map Page.nodes).flatten,
             none :: mid.map (fun p => p.pageInfo.endCursor)) ∧
      (none :: mid.map (fun p => p.pageInfo.endCursor)).length = (mid ++ [lastPage]).length)
    ∧ (∀ (mid : List (Page MerchItem)) (lastPage : Page MerchItem),
      (∀ p ∈ mid, p.pageInfo.hasNextPage = true) →
      lastPage.pageInfo.hasNextPage = false →
      fetch_merchandise (mid ++ [lastPage]) =
        .ok (((mid ++ [lastPage]).map Page.nodes).flatten,
             none :: mid.map (fun p => p.pageInfo.endCursor)) ∧
      (none :: mid.map (fun p => p.pageInfo.endCursor)).length = (mid ++ [lastPage]).length)
    ∧ (∀ (mid : List CountsResponse) (lastResp : CountsResponse),
      (∀ r ∈ mid ++ [lastResp], r.settlements ≠ []) →
      (∀ r ∈ mid, (firstCountsPage r).pageInfo.hasNextPage = true) →
      (firstCountsPage lastResp).pageInfo.hasNextPage = false →
      fetch_counts none (mid ++ [lastResp]) =
        .ok (((mid ++ [lastResp]).map (fun r => (firstCountsPage r).nodes)).flatten,
             none :: mid.map (fun r => (firstCountsPage r).pageInfo.endCursor)) ∧
      (none :: mid.map (fun r => (firstCountsPage r).pageInfo.endCursor)).length
        = (mid ++ [lastResp]).length) := by
  refine ⟨?_, ?_, ?_, ?_, ?_⟩
  · intro mid lastPage hmid hlast
    exact ⟨paginateFrom_run mid lastPage none hmid hlast, by simp⟩
  · intro mid lastPage hmid hlast
    exact ⟨paginateFrom_run mid lastPage none hmid hlast, by simp⟩
  · intro mid lastPage hmid hlast
    exact ⟨paginateFrom_run mid lastPage none hmid hlast, by simp⟩
  · intro mid lastPage hmid hlast
    exact ⟨paginateFrom_run mid lastPage none hmid hlast, by simp⟩
  · intro mid lastResp hset hmid hlast
    exact ⟨fetch_counts_run mid lastResp none hset hmid hlast, by simp⟩

/-- C2 witness: a concrete three-page account sequence — three requests,
nodes concatenated in page order, cursors `None, "c1", "c2"`. -/
theorem collectors_paginate_witness :
    fetch_accounts
        [⟨⟨true, some "c1"⟩, [⟨"a1", "B1"⟩]⟩,
         ⟨⟨true, some "c2"⟩, [⟨"a2", "B2"⟩]⟩,
         ⟨⟨false, none⟩, [⟨"a3", "B3"⟩]⟩] =
      .ok ([⟨"a1", "B1"⟩, ⟨"a2", "B2"⟩, ⟨"a3", "B3"⟩],
           [none, some "c1", some "c2"]) ∧
    ([none, some "c1", some "c2"] : List (Option String)).length = 3 := by
  have h := (collectors_paginate.1
      [⟨⟨true, some "c1"⟩, [⟨"a1", "B1"⟩]⟩, ⟨⟨true, some "c2"⟩, [⟨"a2", "B2"⟩]⟩]
      ⟨⟨false, none⟩, [⟨"a3", "B3"⟩]⟩
      (by intro p hp; simp at hp; rcases hp with h1 | h1 <;> simp [h1]) rfl)
  exact ⟨h.1, rfl⟩

/-! ## C3: unmatched counts are skipped -/

/-- C3: a count record whose `merchVariantUuid` matches no variant of the
fetched merchandise produces no `SoldRecord` and no error, and the other
counts of the show are processed exactly as if the unmatched count were
absent. -/
theorem unmatched_count_skipped :
    ∀ (sh : ShowNode) (merchandise : List MerchItem)
      (pre post : List CountRecord) (c : CountRecord),
      (∀ item ∈ merchandise, ∀ v ∈ item.merchVariants, v.uuid ≠ c.merchVariantUuid) →
      processCount sh merchandise c = none ∧
      processShow sh merchandise (pre ++ c :: post) =
        processShow sh merchandise (pre ++ post) := by
  intro sh merchandise pre post c hno
  have hfind : findMerchItem merchandise c.merchVariantUuid = none := by
    apply List.find?_eq_none.2
    intro item hitem
    simp only [Bool.not_eq_true, List.any_eq_false]
    intro v hv
    simpa using hno item hitem v hv
  have hpc : processCount sh merchandise c = none := by
    simp [processCount, hfind]
  refine ⟨hpc, ?_⟩
  simp [processShow, List.filterMap_append, List.filterMap_cons, hpc]

/-- C3 witness: with the example catalog (single variant uuid `v1`), a
count for uuid `zz` is dropped while the count for `v1` is still
processed. -/
theorem unmatched_count_skipped_witness :
    processCount exShow [exItem] ⟨"zz", none, some 1, none, none, []⟩ = none ∧
    processShow exShow [exItem]
        ([] ++ ⟨"zz", none, some 1, none, none, []⟩ :: [⟨"v1", none, some 3, none, none, []⟩]) =
      processShow exShow [exItem] ([] ++ [⟨"v1", none, some 3, none, none, []⟩]) :=
  unmatched_count_skipped exShow [exItem] []
    [⟨"v1", none, some 3, none, none, []⟩] ⟨"zz", none, some 1, none, none, []⟩
    (by decide)

/-! ## C4: only the first settlement is read -/

/-- C4: over a properly terminated run for a show whose every response
carries at least two settlements, `fetch_counts` returns exactly the
concatenated counts of the first settlement entry of each response, and
any count that appears only in a later settlement is absent from the
output. -/
theorem fetch_counts_first_settlement_only :
    ∀ (mid : List CountsResponse) (lastResp : CountsResponse)
      (counts : List CountRecord) (cursors : List (Option String)),
      (∀ r ∈ mid ++ [lastResp], r.settlements.length ≥ 2) →
      (∀ r ∈ mid, (firstCountsPage r).pageInfo.hasNextPage = true) →
      (firstCountsPage lastResp).pageInfo.hasNextPage = false →
      fetch_counts none (mid ++ [lastResp]) = .ok (counts, cursors) →
      counts = ((mid ++ [lastResp]).map (fun r => (firstCountsPage r).nodes)).flatten ∧
      ∀ c : CountRecord,
        (∃ r ∈ mid ++ [lastResp], ∃ s ∈ r.settlements.tail, c ∈ s.mainCounts.nodes) →
        c ∉ ((mid ++ [lastResp]).map (fun r => (firstCountsPage r).nodes)).flatten →
        c ∉ counts := by
  intro mid lastResp counts cursors hlen hmid hlast hrun
  have hset : ∀ r ∈ mid ++ [lastResp], r.settlements ≠ [] := by
    intro r hr hnil
    have := hlen r hr
    rw [hnil] at this
    simp at this
  rw [fetch_counts_run mid lastResp none hset hmid hlast] at hrun
  have hc : counts =
      ((mid ++ [lastResp]).map (fun r => (firstCountsPage r).nodes)).flatten := by
    simp only [Except.ok.injEq, Prod.mk.injEq] at hrun
    exact hrun.1.symm
  refine ⟨hc, ?_⟩
  intro c _ habs
  rw [hc]
  exact habs

/-- Example counts and a response holding two settlements, for witnesses. -/
def exCount1 : CountRecord := ⟨"v1", none, some 5, some 1, some 1, [⟨some 2⟩]⟩

def exCount2 : CountRecord := ⟨"v2", none, some 2, none, none, []⟩

def exResp2 : CountsResponse :=
  ⟨[⟨⟨⟨false, none⟩, [exCount1]⟩⟩, ⟨⟨⟨false, none⟩, [exCount2]⟩⟩]⟩

/-- C4 witness: a single response with two settlements — the output is the
first settlement's single count, and the second settlement's count is
absent. -/
theorem fetch_counts_first_settlement_only_witness :
    [exCount1] = (([exResp2]).map (fun r => (firstCountsPage r).nodes)).flatten ∧
    ∀ c : CountRecord,
      (∃ r ∈ [exResp2], ∃ s ∈ r.settlements.tail, c ∈ s.mainCounts.nodes) →
      c ∉ (([exResp2]).map (fun r => (firstCountsPage r).nodes)).flatten →
      c ∉ [exCount1] :=
  fetch_counts_first_settlement_only [] exResp2 [exCount1] [none]
    (by decide) (by simp) (by decide) rfl

/-! ## Shared facts about the join of `fetch_all_data` -/

/-- If the outer lookup selects a merch item (because one of its variants
carries the uuid), the inner variant lookup on that item succeeds. -/
theorem findMerchItem_variant (merchandise : List MerchItem) (uuid : String)
    (item : MerchItem) (h : findMerchItem merchandise uuid = some item) :
    ∃ v, findVariant item uuid = some v := by
  have hp := List.find?_some h
  rw [List.any_eq_true] at hp
  have : (item.merchVariants.find? (fun v => v.uuid == uuid)).isSome :=
    List.find?_isSome.2 hp
  obtain ⟨w, hw⟩ := Option.isSome_iff_exists.1 this
  exact ⟨w, hw⟩

/-- Characterization of an emitted record: the matched item and variant
exist and supply the record's fields. -/
theorem processCount_spec (sh : ShowNode) (merch : List MerchItem)
    (c : CountRecord) (rec : SoldRecord)
    (h : processCount sh merch c = some rec) :
    ∃ item v, findMerchItem merch c.merchVariantUuid = some item ∧
      findVariant item c.merchVariantUuid = some v ∧
      rec.size = v.size ∧ rec.sku = v.sku ∧
      rec.price = priceValue c.priceOverride (some v) ∧
      rec.productName = item.name := by
  cases hf : findMerchItem merch c.merchVariantUuid with
  | none => simp [processCount, hf] at h
  | some item =>
    obtain ⟨v, hv⟩ := findMerchItem_variant merch c.merchVariantUuid item hf
    refine ⟨item, v, rfl, hv, ?_⟩
    simp only [processCount, hf, hv, Option.some.injEq] at h
    subst h
    exact ⟨rfl, rfl, rfl, rfl⟩

/-- `priceValue` with a present variant never yields the `'N/A'` sentinel. -/
theorem priceValue_some_ne_na (po : Option Int) (v : MerchVariant) :
    priceValue po (some v) ≠ PriceVal.na := by
  cases po with
  | none =>
    simp only [priceValue, priceFallback]
    cases v.price <;> simp
  | some n =>
    simp only [priceValue]
    split
    · simp only [priceFallback]
      cases v.price <;> simp
    · simp

/-! ## C10: the inner variant lookup always succeeds -/

/-- C10: for every emitted `SoldRecord` the inner variant search succeeds
(the item was selected because it owns a variant with the matching uuid),
so the record's `Size` and `SKU` come from that variant and the
variant-missing `'N/A'` price sentinel is never emitted. -/
theorem inner_variant_lookup_total :
    ∀ (sh : ShowNode) (merch : List MerchItem) (c : CountRecord) (rec : SoldRecord),
      processCount sh merch c = some rec →
      ∃ item, findMerchItem merch c.merchVariantUuid = some item ∧
        ∃ v, findVariant item c.merchVariantUuid = some v ∧
          rec.size = v.size ∧ rec.sku = v.sku ∧ rec.price ≠ PriceVal.na := by
  intro sh merch c rec h
  obtain ⟨item, v, hf, hv, hsize, hsku, hprice, _⟩ := processCount_spec sh merch c rec h
  refine ⟨item, hf, v, hv, hsize, hsku, ?_⟩
  rw [hprice]
  exact priceValue_some_ne_na c.priceOverride v

/-- The record `processCount` emits for `exCount1` against `[exItem]`. -/
def exRec : SoldRecord :=
  ⟨"BandX", "TourY", "New York, NY, US", "Shirt", "M", "A1", 5, 1, 5,
   "2024-08-13", .num 5⟩

/-- C10 witness: the example count matched against the example catalog. -/
theorem inner_variant_lookup_total_witness :
    ∃ item, findMerchItem [exItem] exCount1.merchVariantUuid = some item ∧
      ∃ v, findVariant item exCount1.merchVariantUuid = some v ∧
        exRec.size = v.size ∧ exRec.sku = v.sku ∧ exRec.price ≠ PriceVal.na :=
  inner_variant_lookup_total exShow [exItem] exCount1 exRec rfl

/-! ## C5: price resolution -/

/-- C5 counterexample: a count whose `priceOverride` is present and
non-null but equal to `0` — the claim requires `Price = 0`, yet the code's
`priceOverride or ...` treats `0` as falsy and emits the catalog price `5`. -/
theorem price_override_zero_ignored :
    (⟨"v1", some 0, some 1, none, none, []⟩ : CountRecord).priceOverride = some 0 ∧
    (processCount exShow [exItem] ⟨"v1", some 0, some 1, none, none, []⟩).map
        SoldRecord.price = some (PriceVal.num 5) ∧
    (processCount exShow [exItem] ⟨"v1", some 0, some 1, none, none, []⟩).map
        SoldRecord.price ≠ some (PriceVal.num 0) := by
  exact ⟨rfl, rfl, by decide⟩

/-- C5 amended: the `Price` of an emitted record equals the count's
`priceOverride` whenever it is present, non-null and non-zero (Python
truthiness); when the override is null or zero it equals the matched
variant's catalog price (a null catalog price passes through as null);
the `'N/A'` sentinel would be used only when no variant is found within
the matched item. -/
theorem price_resolution :
    ∀ (sh : ShowNode) (merch : List MerchItem) (c : CountRecord) (rec : SoldRecord),
      processCount sh merch c = some rec →
      (∀ n : Int, c.priceOverride = some n → n ≠ 0 → rec.price = PriceVal.num n) ∧
      (c.priceOverride = none ∨ c.priceOverride = some 0 →
        ∃ item v, findMerchItem merch c.merchVariantUuid = some item ∧
          findVariant item c.merchVariantUuid = some v ∧
          rec.price = (match v.price with
            | some p => PriceVal.num p
            | none => PriceVal.pyNone)) := by
  intro sh merch c rec h
  obtain ⟨item, v, hf, hv, _, _, hprice, _⟩ := processCount_spec sh merch c rec h
  constructor
  · intro n hn hn0
    rw [hprice, hn]
    simp [priceValue, hn0]
  · intro hcase
    refine ⟨item, v, hf, hv, ?_⟩
    rw [hprice]
    rcases hcase with hc | hc <;> rw [hc] <;> simp [priceValue, priceFallback]

/-- C5 witness: `exCount1` has no override, so the emitted price is the
catalog price `5` of the matched variant. -/
theorem price_resolution_witness :
    (∀ n : Int, exCount1.priceOverride = some n → n ≠ 0 → exRec.price = PriceVal.num n) ∧
    (exCount1.priceOverride = none ∨ exCount1.priceOverride = some 0 →
      ∃ item v, findMerchItem [exItem] exCount1.merchVariantUuid = some item ∧
        findVariant item exCount1.merchVariantUuid = some v ∧
        exRec.price = (match v.price with
          | some p => PriceVal.num p
          | none => PriceVal.pyNone)) :=
  price_resolution exShow [exItem] exCount1 exRec rfl

/-! ## C6: `execute_query` -/

/-- C6 counterexample: a 200 response whose body carries the `errors` key
with an *empty* list is rejected by the code (the claim allows an error
only when the list is non-empty); and status 201 — an HTTP success — is
also rejected, since the code accepts exactly status 200. -/
theorem execute_query_rejects_empty_error_list :
    execute_query (HttpResult.response 200 ⟨some [], (0 : Nat)⟩) =
      .error (.graphqlErrors []) ∧
    execute_query (HttpResult.response 201 ⟨none, (0 : Nat)⟩) =
      .error (.badStatus 201) := ⟨rfl, rfl⟩

/-- C6 amended: `execute_query` propagates a transport failure when the
network call does not complete, raises a status failure when the HTTP
status is not exactly 200, raises a GraphQL failure on a 200 response
exactly when the body contains the `errors` key (even with an empty
list), and otherwise returns the parsed body unmodified. -/
theorem execute_query_spec :
    ∀ (α : Type) (r : HttpResult α),
      (r = .failure → execute_query r = .error .transport) ∧
      (∀ (statusCode : Nat) (body : GqlResponse α), r = .response statusCode body →
        (statusCode ≠ 200 → execute_query r = .error (.badStatus statusCode)) ∧
        (statusCode = 200 → ∀ errs, body.errors = some errs →
          execute_query r = .error (.graphqlErrors errs)) ∧
        (statusCode = 200 → body.errors = none → execute_query r = .ok body)) := by
  intro α r
  constructor
  · intro h; rw [h]; rfl
  · intro statusCode body h
    subst h
    refine ⟨?_, ?_, ?_⟩
    · intro hne
      simp [execute_query, hne]
    · intro h200 errs herrs
      simp [execute_query, h200, herrs]
    · intro h200 herrs
      simp [execute_query, h200, herrs]

/-- C6 witness: a clean 200 response is returned unmodified. -/
theorem execute_query_spec_witness :
    execute_query (HttpResult.response 200 ⟨none, (7 : Nat)⟩) =
      .ok ⟨none, (7 : Nat)⟩ :=
  ((execute_query_spec Nat (.response 200 ⟨none, 7⟩)).2 200 ⟨none, 7⟩ rfl).2.2 rfl rfl

/-! ## C7: zero children -/

/-- C7 counterexample: a show whose `settlements` list is empty — the
claim requires an empty result without error, but `settlements[0]` raises
an `IndexError` in `fetch_counts`. -/
theorem fetch_counts_empty_settlements_raises :
    fetch_counts none [⟨[]⟩] = .error .indexError := rfl

/-- C7 amended: every collector returns an empty sequence without error
when its scope entity has zero children (a single page with no nodes and
no next page; for `fetch_counts`, a first settlement whose counts page is
empty) — except that a show whose `settlements` list is empty makes
`fetch_counts` raise an `IndexError` instead of returning an empty
sequence. -/
theorem empty_children_collectors :
    (∀ p : Page AccountNode, p.nodes = [] → p.pageInfo.hasNextPage = false →
      fetch_accounts [p] = .ok ([], [none]))
    ∧ (∀ p : Page TourNode, p.nodes = [] → p.pageInfo.hasNextPage = false →
      fetch_tours [p] = .ok ([], [none]))
    ∧ (∀ p : Page ShowNode, p.nodes = [] → p.pageInfo.hasNextPage = false →
      fetch_shows [p] = .ok ([], [none]))
    ∧ (∀ p : Page MerchItem, p.nodes = [] → p.pageInfo.hasNextPage = false →
      fetch_merchandise [p] = .ok ([], [none]))
    ∧ (∀ (p : Page CountRecord) (tl : List Settlement),
      p.nodes = [] → p.pageInfo.hasNextPage = false →
      fetch_counts none [⟨⟨p⟩ :: tl⟩] = .ok ([], [none]))
    ∧ (∀ rest : List CountsResponse,
      fetch_counts none (⟨[]⟩ :: rest) = .error .indexError) := by
  refine ⟨?_, ?_, ?_, ?_, ?_, ?_⟩
  · intro p hn hl; simp [fetch_accounts, paginateFrom, hl, hn]
  · intro p hn hl; simp [fetch_tours, paginateFrom, hl, hn]
  · intro p hn hl; simp [fetch_shows, paginateFrom, hl, hn]
  · intro p hn hl; simp [fetch_merchandise, paginateFrom, hl, hn]
  · intro p tl hn hl; simp [fetch_counts, hl, hn]
  · intro rest; simp [fetch_counts]

/-- C7 witness: each collector on a concrete empty page, and
`fetch_counts` on a concrete empty settlements list. -/
theorem empty_children_collectors_witness :
    fetch_accounts [⟨⟨false, none⟩, []⟩] = .ok ([], [none]) ∧
    fetch_tours [⟨⟨false, none⟩, []⟩] = .ok ([], [none]) ∧
    fetch_shows [⟨⟨false, none⟩, []⟩] = .ok ([], [none]) ∧
    fetch_merchandise [⟨⟨false, none⟩, []⟩] = .ok ([], [none]) ∧
    fetch_counts none [⟨[⟨⟨⟨false, none⟩, []⟩⟩]⟩] = .ok ([], [none]) ∧
    fetch_counts none [⟨[]⟩] = .error .indexError :=
  ⟨empty_children_collectors.1 ⟨⟨false, none⟩, []⟩ rfl rfl,
   empty_children_collectors.2.1 ⟨⟨false, none⟩, []⟩ rfl rfl,
   empty_children_collectors.2.2.1 ⟨⟨false, none⟩, []⟩ rfl rfl,
   empty_children_collectors.2.2.2.1 ⟨⟨false, none⟩, []⟩ rfl rfl,
   empty_children_collectors.2.2.2.2.1 ⟨⟨false, none⟩, []⟩ [] rfl rfl,
   empty_children_collectors.2.2.2.2.2 []⟩

/-! ## C8: merchandise fetched once per account -/

/-- Looking up a key in a cache extended on the right: a miss in the
extended cache is a miss in the original cache. -/
theorem cacheLookup_append_none (cache : List (String × List MerchItem))
    (kv : String × List MerchItem) (u : String)
    (h : cacheLookup (cache ++ [kv]) u = none) : cacheLookup cache u = none := by
  unfold cacheLookup at h ⊢
  rw [List.find?_append] at h
  cases hf : cache.find? (fun kv => kv.fst == u) with
  | none => rfl
  | some x => rw [hf] at h; simp [Option.or] at h

/-- A cache extended with a binding for `u` never misses `u`. -/
theorem cacheLookup_append_self (cache : List (String × List MerchItem))
    (u : String) (m : List MerchItem) :
    cacheLookup (cache ++ [(u, m)]) u ≠ none := by
  unfold cacheLookup
  rw [List.find?_append]
  cases hf : cache.find? (fun kv => kv.fst == u) <;> simp [Option.or]

/-- Invariant of the `fetch_all_data` loop: the account uuids passed to
`fetch_merchandise` are pairwise distinct and were all absent from the
starting cache. -/
theorem fetchAllLoop_fetched_inv (merchOf : String → List MerchItem)
    (countsOf : String → List CountRecord) :
    ∀ (shows : List ShowNode) (cache : List (String × List MerchItem)),
      (fetchAllLoop merchOf countsOf shows cache).snd.snd.Nodup ∧
      ∀ u ∈ (fetchAllLoop merchOf countsOf shows cache).snd.snd,
        cacheLookup cache u = none := by
  intro shows
  induction shows with
  | nil => intro cache; simp [fetchAllLoop]
  | cons sh rest ih =>
    intro cache
    cases hc : cacheLookup cache sh.account.uuid with
    | some m =>
      have h := ih cache
      simpa [fetchAllLoop, hc] using h
    | none =>
      have h := ih (cache ++ [(sh.account.uuid, merchOf sh.account.uuid)])
      simp only [fetchAllLoop, hc]
      simp only [List.cons_append, List.nodup_cons, List.mem_cons]
      refine ⟨⟨?_, h.1⟩, ?_⟩
      · intro hmem
        exact cacheLookup_append_self cache sh.account.uuid (merchOf sh.account.uuid)
          (h.2 _ hmem)
      · intro u hu
        rcases hu with hu | hu
        · rw [hu]; exact hc
        · exact cacheLookup_append_none cache _ u (h.2 u hu)

/-- C8: within one `fetch_all_data` run, `fetch_merchandise` is called at
most once per account uuid (the list of fetched uuids has no duplicates),
and with two shows sharing an account uuid it is called exactly once. -/
theorem merch_fetched_once_per_account :
    (∀ (merchOf : String → List MerchItem) (countsOf : String → List CountRecord)
       (shows : List ShowNode),
      (fetch_all_data merchOf countsOf shows).snd.snd.Nodup)
    ∧ (∀ (merchOf : String → List MerchItem) (countsOf : String → List CountRecord)
       (s1 s2 : ShowNode),
      s1.account.uuid = s2.account.uuid →
      (fetch_all_data merchOf countsOf [s1, s2]).snd.snd = [s1.account.uuid]) := by
  constructor
  · intro merchOf countsOf shows
    exact (fetchAllLoop_fetched_inv merchOf countsOf shows []).1
  · intro merchOf countsOf s1 s2 h
    simp [fetch_all_data, fetchAllLoop, cacheLookup, List.find?, ← h]

/-- A second show of the same account, for the cache-hit witness. -/
def exShow2 : ShowNode :=
  ⟨"show2", "2024-08-14", none, none, none, none, "USD",
   ⟨none, "Boston", "MA", "US"⟩, exAccount, exTour⟩

/-- C8 witness: two concrete shows sharing account `acc1` — merchandise
is fetched exactly once, for `acc1`. -/
theorem merch_fetched_once_per_account_witness :
    (fetch_all_data (fun _ => [exItem]) (fun _ => []) [exShow, exShow2]).snd.snd
      = ["acc1"] :=
  merch_fetched_once_per_account.2 (fun _ => [exItem]) (fun _ => []) exShow exShow2 rfl

/-! ## C9: the export table -/

/-- Each export row, fully evaluated: the five columns in order. -/
theorem exportRow_eq (r : SoldRecord) :
    exportRow r =
      [("SKU", Cell.s r.sku), ("Action", Cell.s "Replace"),
       ("Quantity", Cell.i (-r.sold)),
       ("Location", Cell.s (r.band ++ " - " ++ r.tourName)),
       ("Reason", Cell.s "Nightly Sales")] := rfl

/-- C9: every row of the exported table has exactly the columns
`SKU, Action, Quantity, Location, Reason` in that order, and comes from a
record whose negated sold quantity fills `Quantity`, with
`Action = 'Replace'`, `Location = '<band> - <tour>'`, and
`Reason = 'Nightly Sales'`. -/
theorem export_table_shape :
    ∀ (records : List SoldRecord) (bands : List String) (row : List (String × Cell)),
      row ∈ exportTable records bands →
      row.map Prod.fst = ["SKU", "Action", "Quantity", "Location", "Reason"] ∧
      ∃ r ∈ records,
        row = [("SKU", Cell.s r.sku), ("Action", Cell.s "Replace"),
               ("Quantity", Cell.i (-r.sold)),
               ("Location", Cell.s (r.band ++ " - " ++ r.tourName)),
               ("Reason", Cell.s "Nightly Sales")] := by
  intro records bands row hmem
  have hmem' : row ∈ records.map exportRow := List.mem_of_mem_filter hmem
  obtain ⟨r, hr, hrow⟩ := List.mem_map.1 hmem'
  rw [← hrow, exportRow_eq]
  exact ⟨rfl, r, hr, rfl⟩

/-- C9 witness: the example record, with its band selected, yields the
expected five-column row. -/
theorem export_table_shape_witness :
    (exportRow exRec).map Prod.fst
        = ["SKU", "Action", "Quantity", "Location", "Reason"] ∧
    ∃ r ∈ [exRec],
      exportRow exRec = [("SKU", Cell.s r.sku), ("Action", Cell.s "Replace"),
        ("Quantity", Cell.i (-r.sold)),
        ("Location", Cell.s (r.band ++ " - " ++ r.tourName)),
        ("Reason", Cell.s "Nightly Sales")] :=
  export_table_shape [exRec] [rowBand (exportRow exRec)] (exportRow exRec)
    (List.mem_filter.2 ⟨by simp, by simp⟩)
